import Mathlib

/-!
Verification of the Fritz!Box AHA-HTTP client script (FritzApi.js).

The development shallowly embeds the script in Lean:
* JS numbers reachable in this program are modelled as exact rationals,
  with an explicit NaN constructor (`JsVal`).
* Host builtins used by the script (`parseInt`, `parseFloat`, `Number`,
  `toLowerCase`, string split, UTF-16 encoding, hex encoding) are modelled
  as executable Lean functions on the input shapes the script can produce.
* The external Crypto-js library and the host HTTP/XML facilities are
  external collaborators: they are parameters of the embedding
  (`CryptoLib`, `Transport`), while everything the script itself computes
  (argument plumbing, XML event handlers, state sequencing, conversion and
  clamping arithmetic) is translated directly from the source.
-/

/-- A JavaScript value as it flows through this script: a (finite) number,
the floating-point NaN, or a string. -/
inductive JsVal where
  | num (q : ℚ)
  | nan
  | str (s : String)
deriving DecidableEq, Repr

/-- ASCII digit test, as used by the numeric host builtins. -/
def isDigitChar (c : Char) : Bool := '0' ≤ c && c ≤ '9'

/-- Whitespace test for the leading-whitespace skip of `parseInt` and friends. -/
def isWsChar (c : Char) : Bool := c = ' ' || c = '\t' || c = '\n' || c = '\r'

/-- Numeric value of an ASCII digit character. -/
def digitVal (c : Char) : ℕ := c.toNat - 48

/-- Split a character list into its maximal ASCII-digit prefix and the rest. -/
def takeDigits : List Char → List Char × List Char
  | [] => ([], [])
  | c :: cs =>
      if isDigitChar c then
        ((takeDigits cs).1.cons c, (takeDigits cs).2)
      else ([], c :: cs)

/-- Value of a digit string read in base 10. -/
def digitsToNat (ds : List Char) : ℕ := ds.foldl (fun acc c => acc * 10 + digitVal c) 0

/-- Read an optional leading sign, returning the sign as an integer factor. -/
def readSign : List Char → ℤ × List Char
  | '-' :: cs => (-1, cs)
  | '+' :: cs => (1, cs)
  | cs => (1, cs)

/-- Model of the JS builtin `parseInt` on decimal input: skip leading
whitespace, read an optional sign and then the maximal digit run, ignoring
everything after it; `none` models the NaN result when no digit is found. -/
def jsParseInt (s : String) : Option ℤ :=
  let cs := s.data.dropWhile isWsChar
  let sg := readSign cs
  let ds := takeDigits sg.2
  if ds.1.isEmpty then none else some (sg.1 * (digitsToNat ds.1 : ℤ))

/-- Model of the JS builtin `parseFloat` on decimal input: optional sign,
integer digits, optional fraction digits after a dot; trailing characters are
ignored, and NaN results when no digit is found at all. -/
def jsParseFloat (s : String) : JsVal :=
  let cs := s.data.dropWhile isWsChar
  let sg := readSign cs
  let ds := takeDigits sg.2
  match ds.2 with
  | '.' :: cs3 =>
      let fs := takeDigits cs3
      if ds.1.isEmpty && fs.1.isEmpty then .nan
      else .num ((sg.1 : ℚ) * ((digitsToNat ds.1 : ℚ) +
        (digitsToNat fs.1 : ℚ) / (10 : ℚ) ^ fs.1.length))
  | _ => if ds.1.isEmpty then .nan else .num ((sg.1 : ℚ) * (digitsToNat ds.1 : ℚ))

/-- Model of the JS `Number` coercion of a string, as used by the relational
comparison `blockTime > 0` and by the iteration-count fields: the whole
trimmed string must be a signed decimal literal; the empty string is 0 and
anything unparsable is NaN. -/
def jsNumber (s : String) : JsVal :=
  let cs := (((s.data.dropWhile isWsChar).reverse).dropWhile isWsChar).reverse
  if cs.isEmpty then .num 0
  else
    let sg := readSign cs
    let ds := takeDigits sg.2
    match ds.2 with
    | [] => if ds.1.isEmpty then .nan else .num ((sg.1 : ℚ) * (digitsToNat ds.1 : ℚ))
    | '.' :: cs3 =>
        let fs := takeDigits cs3
        if fs.2.isEmpty && !(ds.1.isEmpty && fs.1.isEmpty) then
          .num ((sg.1 : ℚ) * ((digitsToNat ds.1 : ℚ) +
            (digitsToNat fs.1 : ℚ) / (10 : ℚ) ^ fs.1.length))
        else .nan
    | _ => .nan

/-- ASCII lower-casing, modelling `String.prototype.toLowerCase` on the
inputs this script handles. -/
def jsCharLower (c : Char) : Char :=
  if 'A' ≤ c && c ≤ 'Z' then Char.ofNat (c.toNat + 32) else c

/-- Lower-case a string. -/
def jsToLower (s : String) : String := String.mk (s.data.map jsCharLower)

/-- `Math.round`: round half-up to the nearest integer. -/
def jsRound (q : ℚ) : ℚ := (⌊q + 1/2⌋ : ℤ)

/-- Truncation toward zero, the effect of `parseInt` applied to a number
argument (via its decimal string form, for the magnitudes this script uses). -/
def jsTrunc (q : ℚ) : ℤ := if 0 ≤ q then ⌊q⌋ else -⌊-q⌋

/-- Decimal digit characters of a natural number. -/
def natToDecString (n : ℕ) : String := Nat.repr n

/-- Decimal string of an integer. -/
def intToDecString : ℤ → String
  | .ofNat n => natToDecString n
  | .negSucc n => "-" ++ natToDecString (n + 1)

/-- JS number-to-string conversion, for the integral and half-integral
values produced by the temperature codec. -/
def jsNumToString (q : ℚ) : String :=
  if q.den = 1 then intToDecString q.num
  else (if q < 0 then "-" else "") ++ intToDecString ⌊if q < 0 then -q else q⌋ ++ ".5"

/-- Settings constant from the script header: unit-conversion mode. -/
def USE_CELSIUS_ON_OFF : Bool := true

/-- The conversion-and-clamp body of `celsiusOnOffToFritz` on a number
input: inputs other than the sentinels 253/254 are rounded to the nearest
0.5 and mapped by `16 + (c - 8) / 0.5`; the result is then clamped, below
16 to 253 (OFF) and above 56 (unless it is exactly 253) to 254 (ON). -/
def convertClamp (c : ℚ) : ℚ :=
  let converted := if c ≠ 253 ∧ c ≠ 254 then 16 + (jsRound (c * 2) / 2 - 8) / (1/2) else c
  if converted < 16 then 253
  else if 56 < converted ∧ converted ≠ 253 then 254
  else converted

/-- `celsiusOnOffToFritz`: a string input must be "on" or "off"
(case-insensitively, anything else throws); it is replaced by the numeric
sentinel and then, like every number input, run through conversion and
clamping.  A NaN input flows through the arithmetic and clamps to itself. -/
def celsiusOnOffToFritz (v : JsVal) : Except String JsVal :=
  match v with
  | .str s =>
      let t := jsToLower s
      if t = "off" then .ok (.num (convertClamp 253))
      else if t = "on" then .ok (.num (convertClamp 254))
      else .error ("Invalid temperature: " ++ t ++ ". Must be a number or \x27on\x27 or \x27off\x27.")
  | .num c => .ok (.num (convertClamp c))
  | .nan => .ok .nan

/-- `parseInt` applied to an arbitrary JS value, as done at the head of
`fritzToCelsiusOnOff`; `none` models NaN. -/
def jsParseIntOf : JsVal → Option ℤ
  | .str s => jsParseInt s
  | .num q => some (jsTrunc q)
  | .nan => none

/-- `fritzToCelsiusOnOff`: apply `parseInt` to the argument, then map the
sentinels 253/254 to the strings "OFF"/"ON" and every other integer n to
the Celsius value `(n - 16) * 0.5 + 8`; a NaN parse flows through the
arithmetic and is returned as NaN. -/
def fritzToCelsiusOnOff (v : JsVal) : JsVal :=
  match jsParseIntOf v with
  | none => .nan
  | some n =>
      if n ≠ 253 ∧ n ≠ 254 then .num (((n : ℚ) - 16) * (1/2) + 8)
      else if n = 253 then .str "OFF"
      else .str "ON"

/-- `parseFloat` applied to an arbitrary JS value: a number passes through
unchanged (its decimal form re-parses to itself for the values this script
produces), a string is parsed, NaN stays NaN. -/
def jsParseFloatOf : JsVal → JsVal
  | .str s => jsParseFloat s
  | .num q => .num q
  | .nan => .nan

/-- Input arguments of the script relevant to argument parsing. -/
structure Args where
  switchcmd : String
  param : Option String
deriving DecidableEq, Repr

/-- Arguments after `parseArgs`, where the parameter may have been replaced
by a device-format number. -/
structure ParsedArgs where
  switchcmd : String
  param : Option JsVal
deriving DecidableEq, Repr

/-- `parseArgs`: for the `sethkrtsoll` command with unit-conversion mode on,
the parameter is required, lower-cased, mapped to 253 for "off"/"0" and 254
for "on", run through `parseFloat` and converted to device format; every
other command passes its arguments through unchanged. -/
def parseArgs (a : Args) : Except String ParsedArgs :=
  if a.switchcmd = "sethkrtsoll" ∧ USE_CELSIUS_ON_OFF = true then
    match a.param with
    | none => .error "No temperature was passed to the script"
    | some p =>
        let lowered := jsToLower p
        let v : JsVal :=
          if lowered = "off" ∨ lowered = "0" then .num 253
          else if lowered = "on" then .num 254
          else .str lowered
        match celsiusOnOffToFritz (jsParseFloatOf v) with
        | .error e => .error e
        | .ok w => .ok ⟨a.switchcmd, some w⟩
  else .ok ⟨a.switchcmd, a.param.map JsVal.str⟩

/-- The temperature-related commands listed in `parseResponse`. -/
def tempVerbs : List String :=
  ["gettemperature", "sethkrtsoll", "gethkrtsoll", "gethkrkomfort", "gethkrabsenk"]

/-- Display of a converted response value: numbers get the degree-Celsius
marker appended (NaN is a number in JS, so it also gets the marker), the
sentinel strings pass through. -/
def jsDisplay : JsVal → String
  | .num q => jsNumToString q ++ "°C"
  | .nan => "NaN°C"
  | .str s => s

/-- `parseResponse`: for a temperature-related command with unit-conversion
mode on, the raw response is converted by `fritzToCelsiusOnOff`, given the
unit marker when numeric and prefixed with the descriptive label; in every
case the fixed "Response: " label is prepended. -/
def parseResponse (response : String) (switchcmd : String) : String :=
  if switchcmd ∈ tempVerbs ∧ USE_CELSIUS_ON_OFF = true then
    "Response: " ++ ("Heater set to " ++ jsDisplay (fritzToCelsiusOnOff (.str response)))
  else "Response: " ++ response

/-- Key material passed to PBKDF2: either a password string (first
derivation) or the raw word-array bytes of a previous hash (second
derivation). -/
inductive KeyMaterial where
  | text (s : String)
  | words (w : List ℕ)
deriving DecidableEq, Repr

/-- The Crypto-js primitives the script imports.  They are external to the
repository, so the embedding is parametric in them: `pbkdf2Sha256` takes the
key material, the salt bytes and the iteration-count value (a JS number,
possibly NaN) and yields the 256-bit key bytes; `hexParse` decodes a hex
string to bytes; `md5` digests a byte sequence. -/
structure CryptoLib where
  pbkdf2Sha256 : KeyMaterial → List ℕ → JsVal → List ℕ
  hexParse : String → List ℕ
  md5 : List ℕ → List ℕ

/-- Hex digit character (lower case), as produced by the Crypto-js hex
encoder. -/
def hexDigitChar (n : ℕ) : Char :=
  if n < 10 then Char.ofNat (48 + n) else Char.ofNat (87 + n)

/-- Two-digit lower-case hex form of a byte. -/
def byteToHex (b : ℕ) : List Char := [hexDigitChar (b % 256 / 16), hexDigitChar (b % 16)]

/-- Hex string of a byte sequence (`WordArray.toString()` in Crypto-js). -/
def hexStringify (bs : List ℕ) : String :=
  String.mk ((bs.map byteToHex).foldr (· ++ ·) [])

/-- UTF-16 code units of a character, low byte first, as in
`Buffer.from(s, "utf16le")`. -/
def charUtf16le (c : Char) : List ℕ :=
  let v := c.toNat
  if v < 65536 then [v % 256, v / 256]
  else
    let u := v - 65536
    let hi := 55296 + u / 1024
    let lo := 56320 + u % 1024
    [hi % 256, hi / 256, lo % 256, lo / 256]

/-- UTF-16LE byte sequence of a string. -/
def utf16leBytes (s : String) : List ℕ :=
  (s.data.map charUtf16le).foldr (· ++ ·) []

/-- `String.prototype.split` with separator `$`. -/
def splitDollarAux : List Char → List Char → List String
  | [], acc => [String.mk acc.reverse]
  | c :: cs, acc =>
      if c = '$' then String.mk acc.reverse :: splitDollarAux cs []
      else splitDollarAux cs (c :: acc)

/-- Split a string on every `$`, as `challenge.split("$")` does. -/
def jsSplitDollar (s : String) : List String := splitDollarAux s.data []

/-- `challenge.startsWith("2$")`. -/
def jsStartsWith2Dollar (s : String) : Bool :=
  match s.data with
  | '2' :: '$' :: _ => true
  | _ => false

/-- `SessionID.calculatePbkdf2Response`: split the challenge on `$`, read
the two iteration counts with `Number` and hex-decode the two salts, chain
the two PBKDF2-SHA256 derivations (the second keyed by the raw first hash)
and return `<salt2 hex>$<hex of hash2>`.  `none` models the exception the
script raises when the challenge has fewer than five fields (Crypto-js then
dereferences an undefined field). -/
def calculatePbkdf2Response (lib : CryptoLib) (challenge password : String) :
    Option String :=
  let parts := jsSplitDollar challenge
  match parts[1]?, parts[2]?, parts[3]?, parts[4]? with
  | some f1, some f2, some f3, some f4 =>
      let hash1 := lib.pbkdf2Sha256 (.text password) (lib.hexParse f2) (jsNumber f1)
      let hash2 := lib.pbkdf2Sha256 (.words hash1) (lib.hexParse f4) (jsNumber f3)
      some (f4 ++ "$" ++ hexStringify hash2)
  | _, _, _, _ => none

/-- `SessionID.calculateMd5Response`: MD5 of the UTF-16LE encoding of
`challenge + "-" + password`, returned as `challenge + "-" + <hex digest>`. -/
def calculateMd5Response (lib : CryptoLib) (challenge password : String) : String :=
  challenge ++ "-" ++ hexStringify (lib.md5 (utf16leBytes (challenge ++ "-" ++ password)))

/-- The strategy dispatch in `SessionID.create`: the PBKDF2 path when the
fetched login state advertises it, the MD5 path otherwise. -/
def solveStep (lib : CryptoLib) (isPbkdf2 : Bool) (challenge password : String) :
    Option String :=
  if isPbkdf2 then calculatePbkdf2Response lib challenge password
  else some (calculateMd5Response lib challenge password)

/-- An event delivered by the host XML parser to the handlers the script
installs. -/
inductive XmlEvent where
  | startElement (name : String)
  | characters (value : String)
deriving DecidableEq, Repr

/-- The host facilities `SessionID` uses: the GET of the login page and the
POST of the credentials, each yielding either a transport error or the XML
event stream of the response body, plus the `encodeURIComponent` builtin. -/
structure Transport where
  getLogin : Except String (List XmlEvent)
  postLogin : String → Except String (List XmlEvent)
  encodeURIComponent : String → String

/-- Mutable state of the XML handler closures in `getLoginState`. -/
structure LoginParseState where
  currentElement : Option String
  challenge : Option String
  blockTime : Option String
deriving DecidableEq, Repr

/-- One XML event through the `getLoginState` handlers: element starts named
Challenge or BlockTime select the current element; character data is stored
for the selected element (two independent conditionals, as in the source). -/
def loginXmlStep (st : LoginParseState) (ev : XmlEvent) : LoginParseState :=
  match ev with
  | .startElement name =>
      if name = "Challenge" ∨ name = "BlockTime" then { st with currentElement := some name }
      else st
  | .characters value =>
      let st1 :=
        if st.currentElement = some "Challenge" then
          { st with challenge := some value, currentElement := some "" }
        else st
      if st1.currentElement = some "BlockTime" then
        { st1 with blockTime := some value, currentElement := some "" }
      else st1

/-- Fold of the login-page XML events through the handlers. -/
def parseLoginXml (events : List XmlEvent) : LoginParseState :=
  events.foldl loginXmlStep ⟨none, none, none⟩

/-- The record `getLoginState` returns. -/
structure LoginState where
  challenge : String
  blockTime : Option String
  isPbkdf2 : Bool
deriving DecidableEq, Repr

/-- `SessionID.getLoginState`: GET the login page, extract Challenge and
BlockTime, and flag PBKDF2 support from the challenge shape.  A transport
failure propagates; a response without a Challenge element makes the script
crash on `null.startsWith`, modelled as an error value. -/
def getLoginState (t : Transport) : Except String LoginState :=
  match t.getLogin with
  | .error e => .error e
  | .ok events =>
      let ps := parseLoginXml events
      match ps.challenge with
      | none => .error "Cannot read properties of null (reading startsWith)"
      | some ch => .ok ⟨ch, ps.blockTime, jsStartsWith2Dollar ch⟩

/-- Mutable state of the XML handler closures in `sendResponse`. -/
structure SidParseState where
  currentElement : Option String
  sid : Option String
deriving DecidableEq, Repr

/-- One XML event through the `sendResponse` handlers. -/
def sidXmlStep (st : SidParseState) (ev : XmlEvent) : SidParseState :=
  match ev with
  | .startElement name =>
      if name = "SID" then { st with currentElement := some name } else st
  | .characters value =>
      if st.currentElement = some "SID" then ⟨some "", some value⟩ else st

/-- SID extracted from the login-submit response events; `none` when the
response holds no SID element (the handler variable stays null). -/
def parseSidXml (events : List XmlEvent) : Option String :=
  (events.foldl sidXmlStep ⟨none, none⟩).sid

/-- The form body built in `sendResponse` (username first, response second,
both URI-encoded). -/
def formBody (t : Transport) (username response : String) : String :=
  t.encodeURIComponent "username" ++ "=" ++ t.encodeURIComponent username ++ "&" ++
    t.encodeURIComponent "response" ++ "=" ++ t.encodeURIComponent response

/-- `SessionID.sendResponse`: POST the credentials and extract the SID text
from the XML response; a transport failure propagates, a missing SID element
yields `none`. -/
def sendResponse (t : Transport) (username challengeResponse : String) :
    Except String (Option String) :=
  match t.postLogin (formBody t username challengeResponse) with
  | .error e => .error e
  | .ok events => .ok (parseSidXml events)

/-- The stages a run of `SessionID.create` passes through, in order. -/
inductive Stage where
  | fetchState
  | solvePbkdf2
  | solveMd5
  | waitLockout
  | submit
deriving DecidableEq, Repr

/-- The test `state.blockTime > 0` of the source: the relational comparison
coerces the string (or null) with `Number`; only a positive numeric value
passes. -/
def blockTimeGtZero : Option String → Bool
  | none => false
  | some s =>
      match jsNumber s with
      | .num q => decide (0 < q)
      | _ => false

/-- Error message of the crash inside `calculatePbkdf2Response` on a short
challenge. -/
def hexParseCrashMsg : String := "Cannot read properties of undefined"

/-- Continuation of `create` after the challenge response is computed: the
conditional lockout wait, then the submit; the SID sentinel for rejected
credentials becomes an error, and every error is wrapped in the
`Failed to login!` message of the surrounding catch. -/
def createAfterSolve (t : Transport) (user resp : String) (st : LoginState)
    (tr : List Stage) : Except String (Option String) × List Stage :=
  let tr2 := tr ++ (if blockTimeGtZero st.blockTime then [Stage.waitLockout] else []) ++
    [Stage.submit]
  match sendResponse t user resp with
  | .error e => (.error ("Failed to login! " ++ e), tr2)
  | .ok sid =>
      if sid = some "0000000000000000" then
        (.error "Failed to login! Wrong username or password", tr2)
      else (.ok sid, tr2)

/-- `SessionID.create`: fetch the login state, compute the challenge
response with exactly one of the two strategies, wait out a positive
lockout, submit, and reject the all-zero SID.  The second component is the
trace of stages the run performed, in execution order. -/
def create (lib : CryptoLib) (t : Transport) (user pass : String) :
    Except String (Option String) × List Stage :=
  match getLoginState t with
  | .error e => (.error ("Failed to login! " ++ e), [Stage.fetchState])
  | .ok st =>
      let solveTr := if st.isPbkdf2 then Stage.solvePbkdf2 else Stage.solveMd5
      match solveStep lib st.isPbkdf2 st.challenge pass with
      | none => (.error ("Failed to login! " ++ hexParseCrashMsg), [Stage.fetchState, solveTr])
      | some resp => createAfterSolve t user resp st [Stage.fetchState, solveTr]

/-- Stages that invoke a proof-derivation strategy. -/
def isSolveStage : Stage → Bool
  | .solvePbkdf2 => true
  | .solveMd5 => true
  | _ => false

/-- A trivial stand-in for the external Crypto-js primitives, used to
instantiate universally quantified statements at a concrete library. -/
def dummyLib : CryptoLib :=
  { pbkdf2Sha256 := fun _ _ _ => [], hexParse := fun _ => [], md5 := fun _ => [] }

/-- Transport fixture: legacy challenge "abc", no BlockTime element, and a
login-submit response carrying the all-zero SID sentinel. -/
def tSentinel : Transport :=
  { getLogin := .ok [.startElement "Challenge", .characters "abc"],
    postLogin := fun _ => .ok [.startElement "SID", .characters "0000000000000000"],
    encodeURIComponent := fun s => s }

/-- Transport fixture: legacy challenge "abc" and a login-submit response
whose XML holds no SID element at all. -/
def tNoSid : Transport :=
  { getLogin := .ok [.startElement "Challenge", .characters "abc"],
    postLogin := fun _ => .ok [.startElement "SessionInfo"],
    encodeURIComponent := fun s => s }

/-- Transport fixture: legacy challenge "abc", BlockTime 5, successful SID. -/
def tWait : Transport :=
  { getLogin := .ok [.startElement "Challenge", .characters "abc",
      .startElement "BlockTime", .characters "5"],
    postLogin := fun _ => .ok [.startElement "SID", .characters "1234567890abcdef"],
    encodeURIComponent := fun s => s }

/-- Transport fixture: legacy challenge "abc", and a POST that fails at the
transport level. -/
def tPostFail : Transport :=
  { getLogin := .ok [.startElement "Challenge", .characters "abc"],
    postLogin := fun _ => .error "The request timed out",
    encodeURIComponent := fun s => s }

/-- The numeric device mapping as the amended claim words it, for
comparison with the code path `convertClamp`: numeric inputs other than the
sentinels 253 and 254 are rounded to the nearest 0.5 half-up and mapped by
`16 + (c - 8) / 0.5`, and the result is clamped — below 16 to 253, above 56
(when not already 253) to 254; the sentinel inputs pass through. -/
def specDeviceOfCelsius (c : ℚ) : ℚ :=
  if c = 253 ∨ c = 254 then c
  else
    if 16 + (jsRound (c * 2) / 2 - 8) / (1/2) < 16 then 253
    else if 56 < 16 + (jsRound (c * 2) / 2 - 8) / (1/2) ∧
        16 + (jsRound (c * 2) / 2 - 8) / (1/2) ≠ 253 then 254
    else 16 + (jsRound (c * 2) / 2 - 8) / (1/2)

theorem createAfterSolve_snd (t : Transport) (user resp : String) (st : LoginState)
    (tr : List Stage) :
    (createAfterSolve t user resp st tr).2 =
      tr ++ (if blockTimeGtZero st.blockTime then [Stage.waitLockout] else []) ++
        [Stage.submit] := by
  unfold createAfterSolve
  cases h : sendResponse t user resp with
  | error e => rfl
  | ok sid =>
      by_cases hs : sid = some "0000000000000000" <;> simp [hs]

theorem getLoginState_isPbkdf2 {t : Transport} {st : LoginState}
    (h : getLoginState t = .ok st) :
    st.isPbkdf2 = jsStartsWith2Dollar st.challenge := by
  unfold getLoginState at h
  cases hg : t.getLogin with
  | error e => simp [hg] at h
  | ok events =>
      simp only [hg] at h
      cases hc : (parseLoginXml events).challenge with
      | none => simp [hc] at h
      | some ch =>
          simp only [hc, Except.ok.injEq] at h
          subst h
          rfl

/-- Claim C1: on a challenge of the form `2$iter1$salt1$iter2$salt2` the
solver takes the PBKDF2 path and returns `salt2 $ hex(hash2)`, where hash1
is PBKDF2-SHA256 of the secret with the hex-decoded first salt and first
iteration count, and hash2 is PBKDF2-SHA256 of the raw hash1 with the
hex-decoded second salt and second iteration count, both with 256-bit
output. -/
theorem pbkdf2_challenge_response (lib : CryptoLib) (challenge secret : String)
    (tag i1 s1 i2 s2 : String)
    (hs : jsStartsWith2Dollar challenge = true)
    (hp : jsSplitDollar challenge = [tag, i1, s1, i2, s2]) :
    solveStep lib (jsStartsWith2Dollar challenge) challenge secret =
      some (s2 ++ "$" ++ hexStringify
        (lib.pbkdf2Sha256
          (.words (lib.pbkdf2Sha256 (.text secret) (lib.hexParse s1) (jsNumber i1)))
          (lib.hexParse s2) (jsNumber i2))) := by
  simp [solveStep, hs, calculatePbkdf2Response, hp]

theorem pbkdf2_challenge_response_witness :
    solveStep dummyLib (jsStartsWith2Dollar "2$7$aa$9$bb") "2$7$aa$9$bb" "pw" =
      some ("bb" ++ "$" ++ hexStringify
        (dummyLib.pbkdf2Sha256
          (.words (dummyLib.pbkdf2Sha256 (.text "pw") (dummyLib.hexParse "aa") (jsNumber "7")))
          (dummyLib.hexParse "bb") (jsNumber "9"))) :=
  pbkdf2_challenge_response dummyLib "2$7$aa$9$bb" "pw" "2" "7" "aa" "9" "bb"
    (by decide) (by decide)

/-- Claim C2: on a challenge without the `2$` marker the solver takes the
legacy path and returns `challenge - hex(md5(utf16le(challenge - secret)))`;
instantiated at challenge `abcdef01` and secret `pw` by the witness. -/
theorem md5_challenge_response (lib : CryptoLib) (challenge secret : String)
    (h : jsStartsWith2Dollar challenge = false) :
    solveStep lib (jsStartsWith2Dollar challenge) challenge secret =
      some (challenge ++ "-" ++
        hexStringify (lib.md5 (utf16leBytes (challenge ++ "-" ++ secret)))) := by
  simp [solveStep, h, calculateMd5Response]

theorem md5_challenge_response_witness :
    solveStep dummyLib (jsStartsWith2Dollar "abcdef01") "abcdef01" "pw" =
      some ("abcdef01" ++ "-" ++
        hexStringify (dummyLib.md5 (utf16leBytes ("abcdef01" ++ "-" ++ "pw")))) :=
  md5_challenge_response dummyLib "abcdef01" "pw" (by decide)

/-- Claim C3: a login-submit response carrying the all-zero SID sentinel
makes `create` fail with the wrapped wrong-credentials error, and no run of
`create` ever returns the sentinel as its session token. -/
theorem sentinel_sid_rejected :
    (∀ (lib : CryptoLib) (t : Transport) (user pass : String) (st : LoginState)
        (resp : String),
        getLoginState t = .ok st →
        solveStep lib st.isPbkdf2 st.challenge pass = some resp →
        sendResponse t user resp = .ok (some "0000000000000000") →
        (create lib t user pass).1 = .error "Failed to login! Wrong username or password") ∧
    (∀ (lib : CryptoLib) (t : Transport) (user pass : String),
        (create lib t user pass).1 ≠ .ok (some "0000000000000000")) := by
  constructor
  · intro lib t user pass st resp h1 h2 h3
    simp only [create, h1, h2, createAfterSolve, h3]
    simp
  · intro lib t user pass
    unfold create
    cases hg : getLoginState t with
    | error e => simp
    | ok st =>
        cases hs : solveStep lib st.isPbkdf2 st.challenge pass with
        | none => simp [hs]
        | some resp =>
            simp only [hs]
            unfold createAfterSolve
            cases hr : sendResponse t user resp with
            | error e => simp [hr]
            | ok sid =>
                by_cases hsid : sid = some "0000000000000000" <;> simp [hr, hsid]

theorem sentinel_sid_rejected_witness :
    (create dummyLib tSentinel "u" "pw").1 =
      .error "Failed to login! Wrong username or password" :=
  sentinel_sid_rejected.1 dummyLib tSentinel "u" "pw" ⟨"abc", none, false⟩ "abc-"
    rfl rfl rfl

/-- Claim C4 counterexample: with challenge "abc" and BlockTime 5 the run
of `create` solves the challenge BEFORE the lockout wait — the trace places
the solve stage ahead of the wait stage, so the wait does not precede the
Challenge Solver invocation as the claim states. -/
theorem wait_before_solve_refuted :
    (create dummyLib tWait "u" "pw").2 =
      [Stage.fetchState, Stage.solveMd5, Stage.waitLockout, Stage.submit] := by
  have hb : blockTimeGtZero (some "5") = true := by
    have h5 : jsNumber "5" = .num ((1 : ℤ) * ((5 : ℕ) : ℚ)) := rfl
    simp only [blockTimeGtZero, h5]
    norm_num
  have hg : getLoginState tWait = .ok ⟨"abc", some "5", false⟩ := rfl
  have hs : solveStep dummyLib false "abc" "pw" = some "abc-" := rfl
  simp only [create, hg, hs, createAfterSolve, hb]
  have hr : sendResponse tWait "u" "abc-" = .ok (some "1234567890abcdef") := rfl
  simp [hr]

/-- Claim C4 (amended): the handshake stages run in the order fetch, then
solve, then the conditional lockout wait, then submit — the lockout wait
follows the Challenge Solver invocation and precedes submission. -/
theorem handshake_stage_order (lib : CryptoLib) (t : Transport) (user pass : String)
    (st : LoginState) (resp : String)
    (h1 : getLoginState t = .ok st)
    (h2 : solveStep lib st.isPbkdf2 st.challenge pass = some resp) :
    (create lib t user pass).2 =
      [Stage.fetchState, if st.isPbkdf2 then Stage.solvePbkdf2 else Stage.solveMd5] ++
        (if blockTimeGtZero st.blockTime then [Stage.waitLockout] else []) ++
        [Stage.submit] := by
  simp only [create, h1, h2, createAfterSolve_snd]

theorem handshake_stage_order_witness :
    (create dummyLib tNoSid "u" "pw").2 =
      [Stage.fetchState, Stage.solveMd5, Stage.submit] :=
  handshake_stage_order dummyLib tNoSid "u" "pw" ⟨"abc", none, false⟩ "abc-" rfl rfl

/-- Claim C6 counterexample: when the login-submit XML response holds no SID
element, `create` does not fail — it returns the null SID as a success value
instead of raising a SubmitError. -/
theorem missing_sid_not_error_refuted :
    (create dummyLib tNoSid "u" "pw").1 = .ok none := rfl

/-- Claim C6 (amended): a transport failure of the login-submit POST makes
`create` fail with the wrapped error; a response without a SID element makes
it return the absent (null) marker as a success instead of raising — in
neither case is a session token produced. -/
theorem submit_failure_modes :
    (∀ (lib : CryptoLib) (t : Transport) (user pass : String) (st : LoginState)
        (resp e : String),
        getLoginState t = .ok st →
        solveStep lib st.isPbkdf2 st.challenge pass = some resp →
        sendResponse t user resp = .error e →
        (create lib t user pass).1 = .error ("Failed to login! " ++ e)) ∧
    (∀ (lib : CryptoLib) (t : Transport) (user pass : String) (st : LoginState)
        (resp : String),
        getLoginState t = .ok st →
        solveStep lib st.isPbkdf2 st.challenge pass = some resp →
        sendResponse t user resp = .ok none →
        (create lib t user pass).1 = .ok none) := by
  constructor
  · intro lib t user pass st resp e h1 h2 h3
    simp only [create, h1, h2, createAfterSolve, h3]
  · intro lib t user pass st resp h1 h2 h3
    simp only [create, h1, h2, createAfterSolve, h3]
    simp

theorem submit_failure_modes_witness :
    (create dummyLib tPostFail "u" "pw").1 =
      .error ("Failed to login! " ++ "The request timed out") :=
  submit_failure_modes.1 dummyLib tPostFail "u" "pw" ⟨"abc", none, false⟩ "abc-"
    "The request timed out" rfl rfl rfl

theorem create_trace_cases (lib : CryptoLib) (t : Transport) (user pass : String)
    (st : LoginState) (h : getLoginState t = .ok st) :
    (create lib t user pass).2 =
      [Stage.fetchState, if st.isPbkdf2 then Stage.solvePbkdf2 else Stage.solveMd5] ∨
    (create lib t user pass).2 =
      [Stage.fetchState, if st.isPbkdf2 then Stage.solvePbkdf2 else Stage.solveMd5] ++
        (if blockTimeGtZero st.blockTime then [Stage.waitLockout] else []) ++
        [Stage.submit] := by
  cases hs : solveStep lib st.isPbkdf2 st.challenge pass with
  | none =>
      left
      simp only [create, h, hs]
  | some resp =>
      right
      simp only [create, h, hs, createAfterSolve_snd]

/-- Claim C7: once the login state is fetched, exactly one proof-derivation
strategy runs — the strategy stages of the trace form the one-element list
holding the PBKDF2 stage exactly when the challenge starts with `2$`, the
MD5 stage exactly otherwise, so the choice depends only on the challenge
format. -/
theorem one_strategy_per_handshake (lib : CryptoLib) (t : Transport) (user pass : String)
    (st : LoginState) (h : getLoginState t = .ok st) :
    ((create lib t user pass).2.filter isSolveStage =
      [if jsStartsWith2Dollar st.challenge then Stage.solvePbkdf2 else Stage.solveMd5]) ∧
    (Stage.solvePbkdf2 ∈ (create lib t user pass).2 ↔
      jsStartsWith2Dollar st.challenge = true) ∧
    (Stage.solveMd5 ∈ (create lib t user pass).2 ↔
      jsStartsWith2Dollar st.challenge = false) := by
  have hpb := getLoginState_isPbkdf2 h
  rcases create_trace_cases lib t user pass st h with htr | htr <;>
    rw [htr, hpb] <;>
    cases hc : jsStartsWith2Dollar st.challenge <;>
    cases hb : blockTimeGtZero st.blockTime <;>
    simp [isSolveStage]

theorem one_strategy_per_handshake_witness :
    ((create dummyLib tNoSid "u" "pw").2.filter isSolveStage = [Stage.solveMd5]) ∧
    (Stage.solvePbkdf2 ∈ (create dummyLib tNoSid "u" "pw").2 ↔
      jsStartsWith2Dollar "abc" = true) ∧
    (Stage.solveMd5 ∈ (create dummyLib tNoSid "u" "pw").2 ↔
      jsStartsWith2Dollar "abc" = false) :=
  one_strategy_per_handshake dummyLib tNoSid "u" "pw" ⟨"abc", none, false⟩ rfl

theorem convertClamp_eq (c : ℚ) (h : c ≠ 253 ∧ c ≠ 254) :
    convertClamp c =
      if 16 + (jsRound (c * 2) / 2 - 8) / (1/2) < 16 then 253
      else if 56 < 16 + (jsRound (c * 2) / 2 - 8) / (1/2) ∧
          16 + (jsRound (c * 2) / 2 - 8) / (1/2) ≠ 253 then 254
      else 16 + (jsRound (c * 2) / 2 - 8) / (1/2) := by
  simp only [convertClamp, if_pos h]

/-- Claim C5 counterexample: the Celsius value 36 (on the 0.5 grid, inside
the claimed interval) does not round-trip — the device mapping clamps it to
the ON sentinel 254, which converts back to the string "ON", not to 36. -/
theorem roundtrip_at_36_refuted :
    celsiusOnOffToFritz (.num 36) = .ok (.num 254) ∧
    fritzToCelsiusOnOff (.num 254) = .str "ON" := by
  constructor
  · have hcc : convertClamp 36 = 254 := by
      rw [convertClamp_eq 36 (by norm_num)]
      unfold jsRound
      norm_num
    show Except.ok (JsVal.num (convertClamp 36)) = Except.ok (JsVal.num 254)
    rw [hcc]
  · have ht : jsTrunc 254 = 254 := by
      unfold jsTrunc
      norm_num
    simp [fritzToCelsiusOnOff, jsParseIntOf, ht]

/-- Claim C5 (amended): for every Celsius value on the 0.5 grid between 8
and 28 — the grid values k/2 for device integers k between 16 and 56 — the
device mapping yields the device integer k and converting back returns
exactly the original Celsius value. -/
theorem roundtrip_half_degree_grid (k : ℤ) (h1 : 16 ≤ k) (h2 : k ≤ 56) :
    celsiusOnOffToFritz (.num ((k : ℚ) / 2)) = .ok (.num (k : ℚ)) ∧
    fritzToCelsiusOnOff (.num (k : ℚ)) = .num ((k : ℚ) / 2) := by
  have hk16 : (16 : ℚ) ≤ (k : ℚ) := by exact_mod_cast h1
  have hk56 : (k : ℚ) ≤ 56 := by exact_mod_cast h2
  constructor
  · have hne : (k : ℚ) / 2 ≠ 253 ∧ (k : ℚ) / 2 ≠ 254 := by
      constructor <;> intro hx <;> nlinarith
    have hr : jsRound ((k : ℚ) / 2 * 2) = (k : ℚ) := by
      unfold jsRound
      have hx : (k : ℚ) / 2 * 2 + 1/2 = 1/2 + (k : ℤ) := by ring
      rw [hx, Int.floor_add_int]
      norm_num
    have hcc : convertClamp ((k : ℚ) / 2) = (k : ℚ) := by
      rw [convertClamp_eq _ hne, hr]
      have hd : (16 : ℚ) + ((k : ℚ) / 2 - 8) / (1/2) = (k : ℚ) := by ring
      rw [hd, if_neg (not_lt.mpr hk16), if_neg (by rintro ⟨hgt, _⟩; linarith)]
    show Except.ok (JsVal.num (convertClamp ((k : ℚ) / 2))) = Except.ok (JsVal.num (k : ℚ))
    rw [hcc]
  · have ht : jsTrunc (k : ℚ) = k := by
      unfold jsTrunc
      rw [if_pos (by linarith : (0 : ℚ) ≤ (k : ℚ))]
      exact Int.floor_intCast k
    have hne : k ≠ 253 ∧ k ≠ 254 := ⟨by omega, by omega⟩
    simp only [fritzToCelsiusOnOff, jsParseIntOf, ht]
    rw [if_pos hne]
    have hxy : ((k : ℚ) - 16) * (1/2) + 8 = (k : ℚ) / 2 := by ring
    rw [hxy]

theorem roundtrip_half_degree_grid_witness :
    (celsiusOnOffToFritz (.num (((39 : ℤ) : ℚ) / 2)) = .ok (.num ((39 : ℤ) : ℚ)) ∧
      fritzToCelsiusOnOff (.num ((39 : ℤ) : ℚ)) = .num (((39 : ℤ) : ℚ) / 2)) :=
  roundtrip_half_degree_grid 39 (by decide) (by decide)

theorem convertClamp_253 : convertClamp 253 = 253 := by
  simp only [convertClamp]
  norm_num

theorem convertClamp_254 : convertClamp 254 = 254 := by
  simp only [convertClamp]
  norm_num

/-- Claim C8 counterexample: the input 7.8 does NOT clamp to 253 — it
rounds up to the grid value 8.0, whose device form is 16, inside the valid
range. -/
theorem toDevice_7_8_refuted :
    parseArgs ⟨"sethkrtsoll", some "7.8"⟩ = .ok ⟨"sethkrtsoll", some (.num 16)⟩ := by
  have h0 : parseArgs ⟨"sethkrtsoll", some "7.8"⟩ =
      .ok ⟨"sethkrtsoll", some (.num (convertClamp
        (((1 : ℤ) : ℚ) * (((7 : ℕ) : ℚ) + ((8 : ℕ) : ℚ) / (10 : ℚ) ^ (1 : ℕ)))))⟩ := rfl
  have hq : ((1 : ℤ) : ℚ) * (((7 : ℕ) : ℚ) + ((8 : ℕ) : ℚ) / (10 : ℚ) ^ (1 : ℕ)) = 78/10 := by
    push_cast
    norm_num
  have hcc : convertClamp (78/10) = 16 := by
    rw [convertClamp_eq (78/10) (by norm_num)]
    unfold jsRound
    norm_num
  rw [h0, hq, hcc]

/-- Claim C8 (amended): the string inputs off/OFF/0 map to 253 and on to
254; every numeric input is mapped exactly as the rounding, linear-map and
clamp formula of the claim prescribes, except that the sentinel inputs 253
and 254 skip the formula and pass through; 7.8 maps to device 16 (it rounds
into range) and 40 clamps to 254. -/
theorem toDeviceFormat_mapping :
    parseArgs ⟨"sethkrtsoll", some "off"⟩ = .ok ⟨"sethkrtsoll", some (.num 253)⟩ ∧
    parseArgs ⟨"sethkrtsoll", some "OFF"⟩ = .ok ⟨"sethkrtsoll", some (.num 253)⟩ ∧
    parseArgs ⟨"sethkrtsoll", some "0"⟩ = .ok ⟨"sethkrtsoll", some (.num 253)⟩ ∧
    parseArgs ⟨"sethkrtsoll", some "on"⟩ = .ok ⟨"sethkrtsoll", some (.num 254)⟩ ∧
    (∀ c : ℚ, convertClamp c = specDeviceOfCelsius c) ∧
    parseArgs ⟨"sethkrtsoll", some "7.8"⟩ = .ok ⟨"sethkrtsoll", some (.num 16)⟩ ∧
    parseArgs ⟨"sethkrtsoll", some "40"⟩ = .ok ⟨"sethkrtsoll", some (.num 254)⟩ := by
  refine ⟨?_, ?_, ?_, ?_, ?_, ?_, ?_⟩
  · have h0 : parseArgs ⟨"sethkrtsoll", some "off"⟩ =
        .ok ⟨"sethkrtsoll", some (.num (convertClamp 253))⟩ := rfl
    rw [h0, convertClamp_253]
  · have h0 : parseArgs ⟨"sethkrtsoll", some "OFF"⟩ =
        .ok ⟨"sethkrtsoll", some (.num (convertClamp 253))⟩ := rfl
    rw [h0, convertClamp_253]
  · have h0 : parseArgs ⟨"sethkrtsoll", some "0"⟩ =
        .ok ⟨"sethkrtsoll", some (.num (convertClamp 253))⟩ := rfl
    rw [h0, convertClamp_253]
  · have h0 : parseArgs ⟨"sethkrtsoll", some "on"⟩ =
        .ok ⟨"sethkrtsoll", some (.num (convertClamp 254))⟩ := rfl
    rw [h0, convertClamp_254]
  · intro c
    by_cases h253 : c = 253
    · subst h253
      rw [convertClamp_253]
      simp [specDeviceOfCelsius]
    by_cases h254 : c = 254
    · subst h254
      rw [convertClamp_254]
      simp [specDeviceOfCelsius]
    · rw [convertClamp_eq c ⟨h253, h254⟩]
      simp only [specDeviceOfCelsius, if_neg (not_or.mpr ⟨h253, h254⟩)]
  · have h0 : parseArgs ⟨"sethkrtsoll", some "7.8"⟩ =
        .ok ⟨"sethkrtsoll", some (.num (convertClamp
          (((1 : ℤ) : ℚ) * (((7 : ℕ) : ℚ) + ((8 : ℕ) : ℚ) / (10 : ℚ) ^ (1 : ℕ)))))⟩ := rfl
    have hq : ((1 : ℤ) : ℚ) * (((7 : ℕ) : ℚ) + ((8 : ℕ) : ℚ) / (10 : ℚ) ^ (1 : ℕ)) = 78/10 := by
      push_cast
      norm_num
    have hcc : convertClamp (78/10) = 16 := by
      rw [convertClamp_eq (78/10) (by norm_num)]
      unfold jsRound
      norm_num
    rw [h0, hq, hcc]
  · have h0 : parseArgs ⟨"sethkrtsoll", some "40"⟩ =
        .ok ⟨"sethkrtsoll", some (.num (convertClamp (((1 : ℤ) : ℚ) * ((40 : ℕ) : ℚ))))⟩ := rfl
    have hq : ((1 : ℤ) : ℚ) * ((40 : ℕ) : ℚ) = 40 := by push_cast; norm_num
    have hcc : convertClamp 40 = 254 := by
      rw [convertClamp_eq 40 (by norm_num)]
      unfold jsRound
      norm_num
    rw [h0, hq, hcc]

theorem fritzToCelsius_of_parse (s : String) (n : ℤ) (hn : jsParseInt s = some n)
    (h253 : n ≠ 253) (h254 : n ≠ 254) :
    fritzToCelsiusOnOff (.str s) = .num (((n : ℚ) - 16) * (1/2) + 8) := by
  simp only [fritzToCelsiusOnOff, jsParseIntOf, hn]
  rw [if_pos ⟨h253, h254⟩]

/-- Claim C9: for every temperature verb with conversion on, the
interpreter output is the fixed label followed by the converted value (with
the degree marker appended to numeric results inside `jsDisplay`); every
output, for every verb, starts with the fixed Response label; and the raw
response 38 for a temperature verb yields exactly
`Response: Heater set to 19°C`. -/
theorem parseResponse_temperature (raw verb : String) (h : verb ∈ tempVerbs) :
    (parseResponse raw verb =
      "Response: " ++ ("Heater set to " ++ jsDisplay (fritzToCelsiusOnOff (.str raw)))) ∧
    (∀ v r : String, ∃ rest, parseResponse r v = "Response: " ++ rest) ∧
    parseResponse "38" "sethkrtsoll" = "Response: Heater set to 19°C" := by
  refine ⟨?_, ?_, ?_⟩
  · rw [parseResponse, if_pos ⟨h, rfl⟩]
  · intro v r
    unfold parseResponse
    by_cases hv : v ∈ tempVerbs ∧ USE_CELSIUS_ON_OFF = true
    · rw [if_pos hv]
      exact ⟨_, rfl⟩
    · rw [if_neg hv]
      exact ⟨_, rfl⟩
  · rw [parseResponse, if_pos ⟨by decide, rfl⟩,
      fritzToCelsius_of_parse "38" 38 (by decide) (by decide) (by decide)]
    have hval : ((38 : ℤ) : ℚ) = 38 := by push_cast; ring
    rw [hval]
    have hq : ((38 : ℚ) - 16) * (1/2) + 8 = 19 := by norm_num
    rw [hq]
    rfl

theorem parseResponse_temperature_witness :
    parseResponse "38" "gettemperature" =
      "Response: " ++ ("Heater set to " ++ jsDisplay (fritzToCelsiusOnOff (.str "38"))) :=
  (parseResponse_temperature "38" "gettemperature" (by decide)).1

/-- Claim C10: the interpreter is total on arbitrary raw text — it only
reads the leading integer, so 38.5 is treated as device value 38
(yielding 19°C), and raw text with no leading digits parses to NaN, which
flows through the Celsius formula into the output
`Response: Heater set to NaN°C` instead of an error. -/
theorem interpreter_nan_flow (raw verb : String) (hv : verb ∈ tempVerbs)
    (hn : jsParseInt raw = none) :
    parseResponse raw verb = "Response: Heater set to NaN°C" ∧
    parseResponse "38.5" "gettemperature" = "Response: Heater set to 19°C" ∧
    parseResponse "hello" "gettemperature" = "Response: Heater set to NaN°C" := by
  refine ⟨?_, ?_, ?_⟩
  · rw [parseResponse, if_pos ⟨hv, rfl⟩]
    have hfc : fritzToCelsiusOnOff (.str raw) = .nan := by
      simp only [fritzToCelsiusOnOff, jsParseIntOf, hn]
    rw [hfc]
    rfl
  · rw [parseResponse, if_pos ⟨by decide, rfl⟩,
      fritzToCelsius_of_parse "38.5" 38 (by decide) (by decide) (by decide)]
    have hval : ((38 : ℤ) : ℚ) = 38 := by push_cast; ring
    rw [hval]
    have hq : ((38 : ℚ) - 16) * (1/2) + 8 = 19 := by norm_num
    rw [hq]
    rfl
  · rw [parseResponse, if_pos ⟨by decide, rfl⟩]
    have hfc : fritzToCelsiusOnOff (.str "hello") = .nan := by
      simp only [fritzToCelsiusOnOff, jsParseIntOf]
      rw [show jsParseInt "hello" = none from by decide]
    rw [hfc]
    rfl

theorem interpreter_nan_flow_witness :
    parseResponse "hello" "gettemperature" = "Response: Heater set to NaN°C" ∧
    parseResponse "38.5" "gettemperature" = "Response: Heater set to 19°C" ∧
    parseResponse "hello" "gettemperature" = "Response: Heater set to NaN°C" :=
  interpreter_nan_flow "hello" "gettemperature" (by decide) (by decide)
